import Mathlib

/-!
Shallow embedding of the tavily-mcp-python repository
(src/tavily_mcp_sse/server.py and src/tavily_mcp_sse/schemas.py).

The four MCP tools (tavily-search, tavily-extract, tavily-crawl,
tavily-map) are modelled as pure functions: parameter validation
(pydantic Field constraints on the tool signature), upstream payload
construction, HTTP status handling, and response-schema validation
(pydantic model_validate followed by model_dump).  JSON values are an
inductive type; JSON numbers are rationals.  The upstream HTTP exchange
is modelled by passing the response (status code plus parsed body) as an
argument.
-/

namespace Tavily

/-- A JSON value, as produced by response.json() in the source. -/
inductive Json where
  | null : Json
  | bool (b : Bool) : Json
  | num (q : Rat) : Json
  | str (s : String) : Json
  | arr (elems : List Json) : Json
  | obj (fields : List (String × Json)) : Json
  deriving Repr

namespace Json

/-- Field access on a JSON object (Python dict lookup). -/
def lookup (j : Json) (key : String) : Option Json :=
  match j with
  | .obj fields => List.lookup key fields
  | _ => none

/-- Coercion of a JSON value into a Python str (pydantic str field). -/
def asStr : Json → Option String
  | .str s => some s
  | _ => none

/-- Coercion of a JSON value into a Python float (pydantic float field). -/
def asFloat : Json → Option Rat
  | .num q => some q
  | _ => none

/-- Coercion of a JSON value into a Python dict (pydantic dict field). -/
def asObj : Json → Option (List (String × Json))
  | .obj fields => some fields
  | _ => none

/-- The top-level keys of a JSON object. -/
def keys : Json → List String
  | .obj fields => fields.map Prod.fst
  | _ => []

end Json

/-- Parse a required pydantic field: the key must be present and the
value must coerce. -/
def reqField (fields : List (String × Json)) (key : String)
    (coerce : Json → Option α) : Option α :=
  (List.lookup key fields).bind coerce

/-- Parse an optional pydantic field declared as `T | None = None`: an
absent key or an explicit null yields None, any other value must
coerce. -/
def optField (fields : List (String × Json)) (key : String)
    (coerce : Json → Option α) : Option (Option α) :=
  match List.lookup key fields with
  | none => some none
  | some .null => some none
  | some v => (coerce v).map some

/-- Render an optional value for model_dump: None becomes JSON null. -/
def dumpOpt (f : α → Json) : Option α → Json
  | none => .null
  | some a => f a

/-! ### Response schemas (schemas.py) -/

/-- schemas.py class SearchImage. -/
structure SearchImage where
  url : String
  description : Option String
  deriving Repr, DecidableEq

def SearchImage.model_validate (j : Json) : Option SearchImage :=
  match j with
  | .obj fields => do
    let url ← reqField fields "url" Json.asStr
    let description ← optField fields "description" Json.asStr
    some { url := url, description := description }
  | _ => none

def SearchImage.model_dump (i : SearchImage) : Json :=
  .obj [("url", .str i.url), ("description", dumpOpt Json.str i.description)]

/-- An element of the `images` list: pydantic union str | SearchImage. -/
inductive ImageEntry where
  | plain (s : String) : ImageEntry
  | described (i : SearchImage) : ImageEntry
  deriving Repr, DecidableEq

def ImageEntry.model_validate (j : Json) : Option ImageEntry :=
  match j with
  | .str s => some (.plain s)
  | .obj fields => (SearchImage.model_validate (.obj fields)).map .described
  | _ => none

def ImageEntry.model_dump : ImageEntry → Json
  | .plain s => .str s
  | .described i => i.model_dump

/-- schemas.py class SearchResult. -/
structure SearchResult where
  title : String
  url : String
  content : String
  score : Rat
  published_date : Option String
  raw_content : Option String
  deriving Repr, DecidableEq

def SearchResult.model_validate (j : Json) : Option SearchResult :=
  match j with
  | .obj fields => do
    let title ← reqField fields "title" Json.asStr
    let url ← reqField fields "url" Json.asStr
    let content ← reqField fields "content" Json.asStr
    let score ← reqField fields "score" Json.asFloat
    let published_date ← optField fields "published_date" Json.asStr
    let raw_content ← optField fields "raw_content" Json.asStr
    some { title := title, url := url, content := content, score := score,
           published_date := published_date, raw_content := raw_content }
  | _ => none

def SearchResult.model_dump (r : SearchResult) : Json :=
  .obj [("title", .str r.title), ("url", .str r.url),
        ("content", .str r.content), ("score", .num r.score),
        ("published_date", dumpOpt Json.str r.published_date),
        ("raw_content", dumpOpt Json.str r.raw_content)]

/-- Parse a JSON array elementwise (pydantic list field). -/
def listField (coerce : Json → Option α) : Json → Option (List α)
  | .arr elems => elems.mapM coerce
  | _ => none

/-- schemas.py class TavilySearchResponse. -/
structure TavilySearchResponse where
  query : String
  answer : Option String
  images : Option (List ImageEntry)
  results : List SearchResult
  response_time : Rat
  auto_parameters : Option (List (String × Json))
  deriving Repr

def TavilySearchResponse.model_validate (j : Json) : Option TavilySearchResponse :=
  match j with
  | .obj fields => do
    let query ← reqField fields "query" Json.asStr
    let answer ← optField fields "answer" Json.asStr
    let images ← optField fields "images" (listField ImageEntry.model_validate)
    let results ← reqField fields "results" (listField SearchResult.model_validate)
    let response_time ← reqField fields "response_time" Json.asFloat
    let auto_parameters ← optField fields "auto_parameters" Json.asObj
    some { query := query, answer := answer, images := images, results := results,
           response_time := response_time, auto_parameters := auto_parameters }
  | _ => none

def TavilySearchResponse.model_dump (m : TavilySearchResponse) : Json :=
  .obj [("query", .str m.query),
        ("answer", dumpOpt Json.str m.answer),
        ("images", dumpOpt (fun xs => .arr (xs.map ImageEntry.model_dump)) m.images),
        ("results", .arr (m.results.map SearchResult.model_dump)),
        ("response_time", .num m.response_time),
        ("auto_parameters", dumpOpt Json.obj m.auto_parameters)]

/-- schemas.py class ExtractResult. -/
structure ExtractResult where
  url : String
  raw_content : String
  images : List String
  deriving Repr, DecidableEq

def ExtractResult.model_validate (j : Json) : Option ExtractResult :=
  match j with
  | .obj fields => do
    let url ← reqField fields "url" Json.asStr
    let raw_content ← reqField fields "raw_content" Json.asStr
    let images ← reqField fields "images" (listField Json.asStr)
    some { url := url, raw_content := raw_content, images := images }
  | _ => none

/-- schemas.py class ExtractFailedResult. -/
structure ExtractFailedResult where
  url : String
  error : String
  deriving Repr, DecidableEq

def ExtractFailedResult.model_validate (j : Json) : Option ExtractFailedResult :=
  match j with
  | .obj fields => do
    let url ← reqField fields "url" Json.asStr
    let error ← reqField fields "error" Json.asStr
    some { url := url, error := error }
  | _ => none

/-- schemas.py class TavilyExtractResponse (declared in the repository
but not invoked by the extract tool, whose validation call is commented
out). -/
structure TavilyExtractResponse where
  results : List ExtractResult
  failed_results : List ExtractFailedResult
  response_time : Rat
  deriving Repr, DecidableEq

def TavilyExtractResponse.model_validate (j : Json) : Option TavilyExtractResponse :=
  match j with
  | .obj fields => do
    let results ← reqField fields "results" (listField ExtractResult.model_validate)
    let failed_results ← reqField fields "failed_results" (listField ExtractFailedResult.model_validate)
    let response_time ← reqField fields "response_time" Json.asFloat
    some { results := results, failed_results := failed_results,
           response_time := response_time }
  | _ => none

/-- schemas.py class CrawlResult. -/
structure CrawlResult where
  url : String
  raw_content : String
  deriving Repr, DecidableEq

def CrawlResult.model_validate (j : Json) : Option CrawlResult :=
  match j with
  | .obj fields => do
    let url ← reqField fields "url" Json.asStr
    let raw_content ← reqField fields "raw_content" Json.asStr
    some { url := url, raw_content := raw_content }
  | _ => none

def CrawlResult.model_dump (r : CrawlResult) : Json :=
  .obj [("url", .str r.url), ("raw_content", .str r.raw_content)]

/-- schemas.py class TavilyCrawlResponse. -/
structure TavilyCrawlResponse where
  base_url : String
  results : List CrawlResult
  response_time : Rat
  deriving Repr, DecidableEq

def TavilyCrawlResponse.model_validate (j : Json) : Option TavilyCrawlResponse :=
  match j with
  | .obj fields => do
    let base_url ← reqField fields "base_url" Json.asStr
    let results ← reqField fields "results" (listField CrawlResult.model_validate)
    let response_time ← reqField fields "response_time" Json.asFloat
    some { base_url := base_url, results := results, response_time := response_time }
  | _ => none

def TavilyCrawlResponse.model_dump (m : TavilyCrawlResponse) : Json :=
  .obj [("base_url", .str m.base_url),
        ("results", .arr (m.results.map CrawlResult.model_dump)),
        ("response_time", .num m.response_time)]

/-- schemas.py class TavilyMapResponse. -/
structure TavilyMapResponse where
  base_url : String
  results : List String
  response_time : Rat
  deriving Repr, DecidableEq

def TavilyMapResponse.model_validate (j : Json) : Option TavilyMapResponse :=
  match j with
  | .obj fields => do
    let base_url ← reqField fields "base_url" Json.asStr
    let results ← reqField fields "results" (listField Json.asStr)
    let response_time ← reqField fields "response_time" Json.asFloat
    some { base_url := base_url, results := results, response_time := response_time }
  | _ => none

def TavilyMapResponse.model_dump (m : TavilyMapResponse) : Json :=
  .obj [("base_url", .str m.base_url),
        ("results", .arr (m.results.map Json.str)),
        ("response_time", .num m.response_time)]

/-! ### HTTP layer (server.py) -/

/-- An upstream HTTP response: status code and parsed JSON body. -/
structure HttpResponse where
  status : Nat
  body : Json

/-- httpx Response.is_success: the status code is in the 2xx range. -/
def isSuccess (status : Nat) : Bool :=
  200 ≤ status && status < 300

/-- The Python exceptions a tool body can raise while handling the
upstream response: ValueError with a message, the HTTPStatusError from
response.raise_for_status(), or a pydantic ValidationError from
model_validate. -/
inductive PyError where
  | valueError (msg : String) : PyError
  | httpStatusError (status : Nat) : PyError
  | validationError : PyError
  deriving Repr, DecidableEq

/-- The shared status-code handling of every tool body: on a non-success
status, 401 raises ValueError Invalid API Key, 429 raises ValueError
Usage limit exceeded, anything else raises via raise_for_status. -/
def httpOutcome (resp : HttpResponse) : Except PyError Unit :=
  if isSuccess resp.status then .ok ()
  else if resp.status == 401 then .error (.valueError "Invalid API Key")
  else if resp.status == 429 then .error (.valueError "Usage limit exceeded")
  else .error (.httpStatusError resp.status)

/-! ### Parameter enumerations (server.py Literal types) -/

def topicValues : List String := ["general", "news"]

def searchDepthValues : List String := ["basic", "advanced"]

def extractDepthValues : List String := ["basic", "advanced"]

def timeRangeValues : List String :=
  ["day", "week", "month", "year", "d", "w", "m", "y"]

def formatValues : List String := ["markdown", "text"]

def crawlCategoriesValues : List String :=
  ["Careers", "Blog", "Documentation", "About", "Pricing", "Community",
   "Developers", "Contact", "Media"]

def countryValues : List String :=
  ["afghanistan", "albania", "algeria", "andorra", "angola", "argentina", "armenia", "australia", "austria", "azerbaijan", "bahamas", "bahrain", "bangladesh", "barbados", "belarus", "belgium", "belize", "benin", "bhutan", "bolivia", "bosnia and herzegovina", "botswana", "brazil", "brunei", "bulgaria", "burkina faso", "burundi", "cambodia", "cameroon", "canada", "cape verde", "central african republic", "chad", "chile", "china", "colombia", "comoros", "congo", "costa rica", "croatia", "cuba", "cyprus", "czech republic", "denmark", "djibouti", "dominican republic", "ecuador", "egypt", "el salvador", "equatorial guinea", "eritrea", "estonia", "ethiopia", "fiji", "finland", "france", "gabon", "gambia", "georgia", "germany", "ghana", "greece", "guatemala", "guinea", "haiti", "honduras", "hungary", "iceland", "india", "indonesia", "iran", "iraq", "ireland", "israel", "italy", "jamaica", "japan", "jordan", "kazakhstan", "kenya", "kuwait", "kyrgyzstan", "latvia", "lebanon", "lesotho", "liberia", "libya", "liechtenstein", "lithuania", "luxembourg", "madagascar", "malawi", "malaysia", "maldives", "mali", "malta", "mauritania", "mauritius", "mexico", "moldova", "monaco", "mongolia", "montenegro", "morocco", "mozambique", "myanmar", "namibia", "nepal", "netherlands", "new zealand", "nicaragua", "niger", "nigeria", "north korea", "north macedonia", "norway", "oman", "pakistan", "panama", "papua new guinea", "paraguay", "peru", "philippines", "poland", "portugal", "qatar", "romania", "russia", "rwanda", "saudi arabia", "senegal", "serbia", "singapore", "slovakia", "slovenia", "somalia", "south africa", "south korea", "south sudan", "spain", "sri lanka", "sudan", "sweden", "switzerland", "syria", "taiwan", "tajikistan", "tanzania", "thailand", "togo", "trinidad and tobago", "tunisia", "turkey", "turkmenistan", "uganda", "ukraine", "united arab emirates", "united kingdom", "united states", "uruguay", "uzbekistan", "venezuela", "vietnam", "yemen", "zambia", "zimbabwe"]

/-! ### tavily-search -/

/-- The arguments of a tavily-search call: query is required, every
other parameter is optional (none means omitted, so the declared default
applies).  The nullable parameters time_range and country have default
None, so an omitted value and an explicit null coincide. -/
structure SearchArgs where
  query : String
  auto_parameters : Option Bool := none
  topic : Option String := none
  search_depth : Option String := none
  max_results : Option Int := none
  time_range : Option String := none
  days : Option Int := none
  include_raw_content : Option Bool := none
  include_answer : Option Bool := none
  include_images : Option Bool := none
  include_image_descriptions : Option Bool := none
  include_domains : Option (List String) := none
  exclude_domains : Option (List String) := none
  country : Option String := none

/-- The resolved parameter set of a search call, after defaults and
constraint checks. -/
structure SearchParams where
  query : String
  auto_parameters : Bool
  topic : String
  search_depth : String
  max_results : Int
  time_range : Option String
  days : Int
  include_raw_content : Bool
  include_answer : Bool
  include_images : Bool
  include_image_descriptions : Bool
  include_domains : List String
  exclude_domains : List String
  country : Option String

/-- Pydantic validation of the tavily-search signature: Literal
enumerations for topic, search_depth, time_range and country, and the
Field bounds ge 5, le 20 on max_results.  Checked before the tool body
runs, hence before any HTTP request. -/
def validateSearchArgs (a : SearchArgs) : Except String SearchParams :=
  let topic := a.topic.getD "general"
  let search_depth := a.search_depth.getD "basic"
  let max_results := a.max_results.getD 10
  if topic ∉ topicValues then
    .error "topic: input should be general or news"
  else if search_depth ∉ searchDepthValues then
    .error "search_depth: input should be basic or advanced"
  else if ¬ (5 ≤ max_results ∧ max_results ≤ 20) then
    .error "max_results: input should be in range 5 to 20"
  else if ¬ (∀ t ∈ a.time_range, t ∈ timeRangeValues) then
    .error "time_range: input should be a permitted value or null"
  else if ¬ (∀ c ∈ a.country, c ∈ countryValues) then
    .error "country: input should be a permitted country or null"
  else
    .ok { query := a.query,
          auto_parameters := a.auto_parameters.getD false,
          topic := topic,
          search_depth := search_depth,
          max_results := max_results,
          time_range := a.time_range,
          days := a.days.getD 3,
          include_raw_content := a.include_raw_content.getD false,
          include_answer := a.include_answer.getD false,
          include_images := a.include_images.getD false,
          include_image_descriptions := a.include_image_descriptions.getD false,
          include_domains := a.include_domains.getD [],
          exclude_domains := a.exclude_domains.getD [],
          country := a.country }

/-- The upstream payload built by the search tool body, in source order.
The body first forces topic to general whenever country is not None,
then appends the process credential as api_key. -/
def searchPayload (p : SearchParams) (api_key : String) : List (String × Json) :=
  let topic := if p.country.isSome then "general" else p.topic
  [("query", .str p.query),
   ("auto_parameters", .bool p.auto_parameters),
   ("search_depth", .str p.search_depth),
   ("topic", .str topic),
   ("days", .num p.days),
   ("time_range", dumpOpt Json.str p.time_range),
   ("max_results", .num p.max_results),
   ("include_answer", .bool p.include_answer),
   ("include_images", .bool p.include_images),
   ("include_image_descriptions", .bool p.include_image_descriptions),
   ("include_raw_content", .bool p.include_raw_content),
   ("include_domains", .arr (p.include_domains.map Json.str)),
   ("exclude_domains", .arr (p.exclude_domains.map Json.str)),
   ("country", dumpOpt Json.str p.country),
   ("api_key", .str api_key)]

/-- The search tool handling of the upstream response: map the status
code, then validate the parsed body against TavilySearchResponse and
return its model_dump. -/
def searchRespond (resp : HttpResponse) : Except PyError Json :=
  match httpOutcome resp with
  | .error e => .error e
  | .ok _ =>
    match TavilySearchResponse.model_validate resp.body with
    | none => .error .validationError
    | some m => .ok m.model_dump

/-- The observable outcome of one tool invocation: either the call is
rejected by parameter validation before any HTTP request, or exactly one
request with the given payload is dispatched and the response handling
produces the given outcome. -/
inductive CallTrace where
  | rejected (msg : String) : CallTrace
  | dispatched (payload : List (String × Json)) (outcome : Except PyError Json) : CallTrace

/-- Whether a call trace issued an HTTP request. -/
def CallTrace.requestIssued : CallTrace → Bool
  | .rejected _ => false
  | .dispatched _ _ => true

/-- A full tavily-search invocation given the upstream response. -/
def searchCall (a : SearchArgs) (api_key : String) (resp : HttpResponse) : CallTrace :=
  match validateSearchArgs a with
  | .error msg => .rejected msg
  | .ok p => .dispatched (searchPayload p api_key) (searchRespond resp)

/-! ### tavily-extract -/

/-- The arguments of a tavily-extract call: urls is required, the rest
optional. -/
structure ExtractArgs where
  urls : List String
  extract_depth : Option String := none
  include_images : Option Bool := none
  format : Option String := none

/-- The resolved parameter set of an extract call. -/
structure ExtractParams where
  urls : List String
  extract_depth : String
  include_images : Bool
  format : String

/-- Pydantic validation of the tavily-extract signature: Literal
enumerations for extract_depth and format. -/
def validateExtractArgs (a : ExtractArgs) : Except String ExtractParams :=
  let extract_depth := a.extract_depth.getD "basic"
  let format := a.format.getD "markdown"
  if extract_depth ∉ extractDepthValues then
    .error "extract_depth: input should be basic or advanced"
  else if format ∉ formatValues then
    .error "format: input should be markdown or text"
  else
    .ok { urls := a.urls,
          extract_depth := extract_depth,
          include_images := a.include_images.getD false,
          format := format }

/-- The upstream payload built by the extract tool body, in source
order. -/
def extractPayload (p : ExtractParams) (api_key : String) : List (String × Json) :=
  [("urls", .arr (p.urls.map Json.str)),
   ("extract_depth", .str p.extract_depth),
   ("include_images", .bool p.include_images),
   ("format", .str p.format),
   ("api_key", .str api_key)]

/-- The extract tool handling of the upstream response: map the status
code, then return the parsed body unchanged — the model_validate call is
commented out in the source, so no shape validation happens. -/
def extractRespond (resp : HttpResponse) : Except PyError Json :=
  match httpOutcome resp with
  | .error e => .error e
  | .ok _ => .ok resp.body

/-- A full tavily-extract invocation given the upstream response. -/
def extractCall (a : ExtractArgs) (api_key : String) (resp : HttpResponse) : CallTrace :=
  match validateExtractArgs a with
  | .error msg => .rejected msg
  | .ok p => .dispatched (extractPayload p api_key) (extractRespond resp)

/-! ### tavily-crawl -/

/-- The arguments of a tavily-crawl call: url and instructions are
required, the rest optional. -/
structure CrawlArgs where
  url : String
  instructions : String
  max_depth : Option Int := none
  max_breadth : Option Int := none
  limit : Option Int := none
  select_paths : Option (List String) := none
  select_domains : Option (List String) := none
  allow_external : Option Bool := none
  categories : Option (List String) := none
  extract_depth : Option String := none
  format : Option String := none

/-- The resolved parameter set of a crawl call. -/
structure CrawlParams where
  url : String
  instructions : String
  max_depth : Int
  max_breadth : Int
  limit : Int
  select_paths : List String
  select_domains : List String
  allow_external : Bool
  categories : List String
  extract_depth : String
  format : String

/-- Pydantic validation of the tavily-crawl signature: Field bound ge 1
on max_depth, max_breadth and limit, the Literal enumeration for each
element of categories, and the extract_depth and format Literals. -/
def validateCrawlArgs (a : CrawlArgs) : Except String CrawlParams :=
  let max_depth := a.max_depth.getD 1
  let max_breadth := a.max_breadth.getD 20
  let limit := a.limit.getD 50
  let categories := a.categories.getD []
  let extract_depth := a.extract_depth.getD "basic"
  let format := a.format.getD "markdown"
  if ¬ (1 ≤ max_depth) then
    .error "max_depth: input should be greater than or equal to 1"
  else if ¬ (1 ≤ max_breadth) then
    .error "max_breadth: input should be greater than or equal to 1"
  else if ¬ (1 ≤ limit) then
    .error "limit: input should be greater than or equal to 1"
  else if ¬ (∀ c ∈ categories, c ∈ crawlCategoriesValues) then
    .error "categories: input should be permitted category labels"
  else if extract_depth ∉ extractDepthValues then
    .error "extract_depth: input should be basic or advanced"
  else if format ∉ formatValues then
    .error "format: input should be markdown or text"
  else
    .ok { url := a.url,
          instructions := a.instructions,
          max_depth := max_depth,
          max_breadth := max_breadth,
          limit := limit,
          select_paths := a.select_paths.getD [],
          select_domains := a.select_domains.getD [],
          allow_external := a.allow_external.getD false,
          categories := categories,
          extract_depth := extract_depth,
          format := format }

/-- The upstream payload built by the crawl tool body, in source
order. -/
def crawlPayload (p : CrawlParams) (api_key : String) : List (String × Json) :=
  [("url", .str p.url),
   ("instructions", .str p.instructions),
   ("max_depth", .num p.max_depth),
   ("max_breadth", .num p.max_breadth),
   ("limit", .num p.limit),
   ("select_paths", .arr (p.select_paths.map Json.str)),
   ("select_domains", .arr (p.select_domains.map Json.str)),
   ("allow_external", .bool p.allow_external),
   ("categories", .arr (p.categories.map Json.str)),
   ("extract_depth", .str p.extract_depth),
   ("format", .str p.format),
   ("api_key", .str api_key)]

/-- The crawl tool handling of the upstream response: map the status
code, then validate against TavilyCrawlResponse and return its
model_dump. -/
def crawlRespond (resp : HttpResponse) : Except PyError Json :=
  match httpOutcome resp with
  | .error e => .error e
  | .ok _ =>
    match TavilyCrawlResponse.model_validate resp.body with
    | none => .error .validationError
    | some m => .ok m.model_dump

/-- A full tavily-crawl invocation given the upstream response. -/
def crawlCall (a : CrawlArgs) (api_key : String) (resp : HttpResponse) : CallTrace :=
  match validateCrawlArgs a with
  | .error msg => .rejected msg
  | .ok p => .dispatched (crawlPayload p api_key) (crawlRespond resp)

/-! ### tavily-map -/

/-- The arguments of a tavily-map call: url and instructions are
required, the rest optional; map has no extract_depth or format
parameter. -/
structure MapArgs where
  url : String
  instructions : String
  max_depth : Option Int := none
  max_breadth : Option Int := none
  limit : Option Int := none
  select_paths : Option (List String) := none
  select_domains : Option (List String) := none
  allow_external : Option Bool := none
  categories : Option (List String) := none

/-- The resolved parameter set of a map call. -/
structure MapParams where
  url : String
  instructions : String
  max_depth : Int
  max_breadth : Int
  limit : Int
  select_paths : List String
  select_domains : List String
  allow_external : Bool
  categories : List String

/-- Pydantic validation of the tavily-map signature: the same depth,
breadth, limit and categories constraints as crawl. -/
def validateMapArgs (a : MapArgs) : Except String MapParams :=
  let max_depth := a.max_depth.getD 1
  let max_breadth := a.max_breadth.getD 20
  let limit := a.limit.getD 50
  let categories := a.categories.getD []
  if ¬ (1 ≤ max_depth) then
    .error "max_depth: input should be greater than or equal to 1"
  else if ¬ (1 ≤ max_breadth) then
    .error "max_breadth: input should be greater than or equal to 1"
  else if ¬ (1 ≤ limit) then
    .error "limit: input should be greater than or equal to 1"
  else if ¬ (∀ c ∈ categories, c ∈ crawlCategoriesValues) then
    .error "categories: input should be permitted category labels"
  else
    .ok { url := a.url,
          instructions := a.instructions,
          max_depth := max_depth,
          max_breadth := max_breadth,
          limit := limit,
          select_paths := a.select_paths.getD [],
          select_domains := a.select_domains.getD [],
          allow_external := a.allow_external.getD false,
          categories := categories }

/-- The upstream payload built by the map tool body, in source order. -/
def mapPayload (p : MapParams) (api_key : String) : List (String × Json) :=
  [("url", .str p.url),
   ("instructions", .str p.instructions),
   ("max_depth", .num p.max_depth),
   ("max_breadth", .num p.max_breadth),
   ("limit", .num p.limit),
   ("select_paths", .arr (p.select_paths.map Json.str)),
   ("select_domains", .arr (p.select_domains.map Json.str)),
   ("allow_external", .bool p.allow_external),
   ("categories", .arr (p.categories.map Json.str)),
   ("api_key", .str api_key)]

/-- The map tool handling of the upstream response: map the status code,
then validate against TavilyMapResponse and return its model_dump. -/
def mapRespond (resp : HttpResponse) : Except PyError Json :=
  match httpOutcome resp with
  | .error e => .error e
  | .ok _ =>
    match TavilyMapResponse.model_validate resp.body with
    | none => .error .validationError
    | some m => .ok m.model_dump

/-- A full tavily-map invocation given the upstream response. -/
def mapCall (a : MapArgs) (api_key : String) (resp : HttpResponse) : CallTrace :=
  match validateMapArgs a with
  | .error msg => .rejected msg
  | .ok p => .dispatched (mapPayload p api_key) (mapRespond resp)

/-! ### Process startup (server.py module level) -/

/-- The process-wide configuration established at import time. -/
structure ServerConfig where
  port : Int
  api_key : String

/-- Module-level startup of server.py: parse TAVILY_MCP_PORT with
default 8000 on absence or parse failure, then require TAVILY_API_KEY —
if it is absent the process calls sys.exit with code -1, before any tool
is registered.  The result is either the exit code or the configuration
under which the tools are served. -/
def startup (port_env : Option String) (key_env : Option String) :
    Except Int ServerConfig :=
  let port : Int :=
    match port_env with
    | none => 8000
    | some s =>
      match s.toInt? with
      | some p => p
      | none => 8000
  match key_env with
  | none => .error (-1)
  | some k => .ok { port := port, api_key := k }

/-- The url fields of the entries of a JSON result list, as reported by
the upstream extract endpoint. -/
def entryUrls (elems : List Json) : List String :=
  elems.filterMap fun e => (e.lookup "url").bind Json.asStr

/-! ### Theorems -/

/-- Claim C5: for every tool whose upstream HTTP response has status
401, the call fails with ValueError Invalid API Key, regardless of the
response body content. -/
theorem upstream_401_invalid_api_key (resp : HttpResponse)
    (h : resp.status = 401) :
    searchRespond resp = .error (.valueError "Invalid API Key") ∧
    extractRespond resp = .error (.valueError "Invalid API Key") ∧
    crawlRespond resp = .error (.valueError "Invalid API Key") ∧
    mapRespond resp = .error (.valueError "Invalid API Key") := by
  obtain ⟨s, body⟩ := resp
  simp only at h
  subst h
  exact ⟨rfl, rfl, rfl, rfl⟩

/-- Witness for claim C5 at a concrete 401 response. -/
theorem upstream_401_invalid_api_key_witness :
    searchRespond ⟨401, Json.null⟩ = .error (.valueError "Invalid API Key") ∧
    extractRespond ⟨401, Json.null⟩ = .error (.valueError "Invalid API Key") ∧
    crawlRespond ⟨401, Json.null⟩ = .error (.valueError "Invalid API Key") ∧
    mapRespond ⟨401, Json.null⟩ = .error (.valueError "Invalid API Key") :=
  upstream_401_invalid_api_key ⟨401, Json.null⟩ rfl

/-- Claim C6: for every tool whose upstream HTTP response has status
429, the call fails with ValueError Usage limit exceeded, regardless of
the response body content. -/
theorem upstream_429_usage_limit_exceeded (resp : HttpResponse)
    (h : resp.status = 429) :
    searchRespond resp = .error (.valueError "Usage limit exceeded") ∧
    extractRespond resp = .error (.valueError "Usage limit exceeded") ∧
    crawlRespond resp = .error (.valueError "Usage limit exceeded") ∧
    mapRespond resp = .error (.valueError "Usage limit exceeded") := by
  obtain ⟨s, body⟩ := resp
  simp only at h
  subst h
  exact ⟨rfl, rfl, rfl, rfl⟩

/-- Witness for claim C6 at a concrete 429 response. -/
theorem upstream_429_usage_limit_exceeded_witness :
    searchRespond ⟨429, Json.null⟩ = .error (.valueError "Usage limit exceeded") ∧
    extractRespond ⟨429, Json.null⟩ = .error (.valueError "Usage limit exceeded") ∧
    crawlRespond ⟨429, Json.null⟩ = .error (.valueError "Usage limit exceeded") ∧
    mapRespond ⟨429, Json.null⟩ = .error (.valueError "Usage limit exceeded") :=
  upstream_429_usage_limit_exceeded ⟨429, Json.null⟩ rfl

/-- Claim C9: if the TAVILY_API_KEY environment variable is absent at
startup, the process exits with code -1 before any tool is served,
whatever the port configuration says. -/
theorem missing_credential_exits (port_env : Option String) :
    startup port_env none = .error (-1) := by
  unfold startup
  rfl

/-- Claim C1: on every successful upstream response, extract returns the
parsed JSON body unchanged while search, crawl and map each return the
model_dump of a successful schema validation of the body, failing with a
ValidationError when the body does not validate. -/
theorem extract_skips_validation_others_enforce (resp : HttpResponse)
    (h : isSuccess resp.status = true) :
    extractRespond resp = .ok resp.body ∧
    searchRespond resp =
      (match TavilySearchResponse.model_validate resp.body with
        | none => .error .validationError
        | some m => .ok m.model_dump) ∧
    crawlRespond resp =
      (match TavilyCrawlResponse.model_validate resp.body with
        | none => .error .validationError
        | some m => .ok m.model_dump) ∧
    mapRespond resp =
      (match TavilyMapResponse.model_validate resp.body with
        | none => .error .validationError
        | some m => .ok m.model_dump) := by
  unfold extractRespond searchRespond crawlRespond mapRespond httpOutcome
  rw [h]
  exact ⟨rfl, rfl, rfl, rfl⟩

/-- Witness for claim C1 at a concrete successful response. -/
theorem extract_skips_validation_others_enforce_witness :
    extractRespond ⟨200, Json.null⟩ = .ok Json.null ∧
    searchRespond ⟨200, Json.null⟩ =
      (match TavilySearchResponse.model_validate Json.null with
        | none => .error .validationError
        | some m => .ok m.model_dump) ∧
    crawlRespond ⟨200, Json.null⟩ =
      (match TavilyCrawlResponse.model_validate Json.null with
        | none => .error .validationError
        | some m => .ok m.model_dump) ∧
    mapRespond ⟨200, Json.null⟩ =
      (match TavilyMapResponse.model_validate Json.null with
        | none => .error .validationError
        | some m => .ok m.model_dump) :=
  extract_skips_validation_others_enforce ⟨200, Json.null⟩ rfl

/-- Claim C7: for each of the four tools, a call that omits every
optional parameter dispatches exactly the documented default payload,
with the injected api_key credential field; in particular search sends
search_depth basic and max_results 10. -/
theorem default_payloads (query api_key url instructions : String)
    (urls : List String) (resp : HttpResponse) :
    searchCall { query := query } api_key resp =
      .dispatched
        [("query", .str query),
         ("auto_parameters", .bool false),
         ("search_depth", .str "basic"),
         ("topic", .str "general"),
         ("days", .num 3),
         ("time_range", .null),
         ("max_results", .num 10),
         ("include_answer", .bool false),
         ("include_images", .bool false),
         ("include_image_descriptions", .bool false),
         ("include_raw_content", .bool false),
         ("include_domains", .arr []),
         ("exclude_domains", .arr []),
         ("country", .null),
         ("api_key", .str api_key)]
        (searchRespond resp) ∧
    extractCall { urls := urls } api_key resp =
      .dispatched
        [("urls", .arr (urls.map Json.str)),
         ("extract_depth", .str "basic"),
         ("include_images", .bool false),
         ("format", .str "markdown"),
         ("api_key", .str api_key)]
        (extractRespond resp) ∧
    crawlCall { url := url, instructions := instructions } api_key resp =
      .dispatched
        [("url", .str url),
         ("instructions", .str instructions),
         ("max_depth", .num 1),
         ("max_breadth", .num 20),
         ("limit", .num 50),
         ("select_paths", .arr []),
         ("select_domains", .arr []),
         ("allow_external", .bool false),
         ("categories", .arr []),
         ("extract_depth", .str "basic"),
         ("format", .str "markdown"),
         ("api_key", .str api_key)]
        (crawlRespond resp) ∧
    mapCall { url := url, instructions := instructions } api_key resp =
      .dispatched
        [("url", .str url),
         ("instructions", .str instructions),
         ("max_depth", .num 1),
         ("max_breadth", .num 20),
         ("limit", .num 50),
         ("select_paths", .arr []),
         ("select_domains", .arr []),
         ("allow_external", .bool false),
         ("categories", .arr []),
         ("api_key", .str api_key)]
        (mapRespond resp) :=
  ⟨rfl, rfl, rfl, rfl⟩

/-- A max_results value outside the declared bounds makes search
parameter validation fail, whatever the other arguments are. -/
lemma validateSearchArgs_error_of_max_results (a : SearchArgs)
    (h : ¬ (5 ≤ a.max_results.getD 10 ∧ a.max_results.getD 10 ≤ 20)) :
    ∃ msg, validateSearchArgs a = .error msg := by
  simp only [validateSearchArgs]
  repeat' split
  any_goals exact ⟨_, rfl⟩

/-- Claim C3: a tavily-search call with max_results outside the range
5 to 20 — in particular 4 or 21 — is rejected by parameter validation
and no HTTP request is issued. -/
theorem search_max_results_out_of_range_rejected (a : SearchArgs)
    (api_key : String) (resp : HttpResponse)
    (h : a.max_results = some 4 ∨ a.max_results = some 21) :
    (searchCall a api_key resp).requestIssued = false ∧
    ∃ msg, searchCall a api_key resp = .rejected msg := by
  have hv : ∃ msg, validateSearchArgs a = .error msg := by
    apply validateSearchArgs_error_of_max_results
    rcases h with h | h <;> rw [h] <;> decide
  obtain ⟨msg, hv⟩ := hv
  unfold searchCall
  rw [hv]
  exact ⟨rfl, msg, rfl⟩

/-- Witness for claim C3 at a concrete call with max_results 4. -/
theorem search_max_results_out_of_range_rejected_witness :
    (searchCall { query := "q", max_results := some 4 } "k" ⟨200, Json.null⟩).requestIssued = false ∧
    ∃ msg, searchCall { query := "q", max_results := some 4 } "k" ⟨200, Json.null⟩ = .rejected msg :=
  search_max_results_out_of_range_rejected
    { query := "q", max_results := some 4 } "k" ⟨200, Json.null⟩ (Or.inl rfl)

/-- Search parameter validation passes the country argument through
unchanged. -/
lemma validateSearchArgs_country (a : SearchArgs) (p : SearchParams)
    (hv : validateSearchArgs a = .ok p) : p.country = a.country := by
  simp only [validateSearchArgs] at hv
  split at hv
  · exact absurd hv (by simp)
  split at hv
  · exact absurd hv (by simp)
  split at hv
  · exact absurd hv (by simp)
  split at hv
  · exact absurd hv (by simp)
  split at hv
  · exact absurd hv (by simp)
  injection hv with h
  rw [← h]

/-- Claim C2: every dispatched tavily-search call whose country argument
is not None carries topic general in the upstream payload, whatever
topic the caller supplied. -/
theorem search_country_forces_topic_general (a : SearchArgs)
    (api_key : String) (resp : HttpResponse)
    (payload : List (String × Json)) (outcome : Except PyError Json)
    (hd : searchCall a api_key resp = .dispatched payload outcome)
    (hc : a.country ≠ none) :
    List.lookup "topic" payload = some (Json.str "general") := by
  unfold searchCall at hd
  cases hv : validateSearchArgs a with
  | error msg => rw [hv] at hd; exact absurd hd (by simp)
  | ok p =>
    rw [hv] at hd
    injection hd with hpay hout
    obtain ⟨c, hc2⟩ := Option.ne_none_iff_exists'.mp hc
    have hpc : p.country = some c := by
      rw [validateSearchArgs_country a p hv, hc2]
    rw [← hpay]
    unfold searchPayload
    rw [hpc]
    rfl

/-- Witness for claim C2 at a concrete call with topic news and country
japan. -/
theorem search_country_forces_topic_general_witness :
    List.lookup "topic"
      [("query", Json.str "q"),
       ("auto_parameters", Json.bool false),
       ("search_depth", Json.str "basic"),
       ("topic", Json.str "general"),
       ("days", Json.num 3),
       ("time_range", Json.null),
       ("max_results", Json.num 10),
       ("include_answer", Json.bool false),
       ("include_images", Json.bool false),
       ("include_image_descriptions", Json.bool false),
       ("include_raw_content", Json.bool false),
       ("include_domains", Json.arr []),
       ("exclude_domains", Json.arr []),
       ("country", Json.str "japan"),
       ("api_key", Json.str "k")] = some (Json.str "general") :=
  search_country_forces_topic_general
    { query := "q", topic := some "news", country := some "japan" } "k"
    ⟨200, Json.null⟩ _ _ rfl (by simp)

/-- A search response body without a results key fails
TavilySearchResponse validation, whatever its other fields hold. -/
lemma searchValidate_none_of_no_results (fields : List (String × Json))
    (hr : List.lookup "results" fields = none) :
    TavilySearchResponse.model_validate (.obj fields) = none := by
  have hres : reqField fields "results" (listField SearchResult.model_validate) = none := by
    unfold reqField
    rw [hr]
    rfl
  unfold TavilySearchResponse.model_validate
  cases hq : reqField fields "query" Json.asStr with
  | none => simp [hq]
  | some q =>
    cases ha : optField fields "answer" Json.asStr with
    | none => simp [hq, ha]
    | some answer =>
      cases hi : optField fields "images" (listField ImageEntry.model_validate) with
      | none => simp [hq, ha, hi]
      | some images => simp [hq, ha, hi, hres]

/-- Claim C4: a tavily-search upstream response with a success status
whose JSON body lacks the required results field ends in a pydantic
ValidationError and no value is returned to the caller. -/
theorem search_missing_results_validation_error (resp : HttpResponse)
    (fields : List (String × Json))
    (hs : isSuccess resp.status = true)
    (hb : resp.body = Json.obj fields)
    (hr : List.lookup "results" fields = none) :
    searchRespond resp = .error .validationError := by
  unfold searchRespond httpOutcome
  rw [hs, hb, searchValidate_none_of_no_results fields hr]
  rfl

/-- Witness for claim C4 at a concrete 200 response whose body is an
object with a query but no results. -/
theorem search_missing_results_validation_error_witness :
    searchRespond ⟨200, Json.obj [("query", Json.str "q")]⟩ = .error .validationError :=
  search_missing_results_validation_error
    ⟨200, Json.obj [("query", Json.str "q")]⟩ [("query", Json.str "q")] rfl rfl rfl

/-- Claim C8: a dispatched tavily-extract call with 3 input URLs whose
successful upstream response reports 2 successes and 1 failure covering
the inputs returns a value with exactly 2 entries in the success list
and 1 entry in the failure list, every input URL appearing in exactly
one of the two lists — the body is passed through unchanged. -/
theorem extract_passthrough_partition (a : ExtractArgs) (api_key : String)
    (resp : HttpResponse) (succ failed : List Json)
    (payload : List (String × Json)) (outcome : Except PyError Json)
    (hd : extractCall a api_key resp = .dispatched payload outcome)
    (hs : isSuccess resp.status = true)
    (_hlen : a.urls.length = 3)
    (hres : resp.body.lookup "results" = some (.arr succ))
    (hfail : resp.body.lookup "failed_results" = some (.arr failed))
    (h2 : (entryUrls succ).length = 2)
    (h1 : (entryUrls failed).length = 1)
    (hcover : ∀ u ∈ a.urls,
      (u ∈ entryUrls succ ∧ u ∉ entryUrls failed) ∨
      (u ∉ entryUrls succ ∧ u ∈ entryUrls failed)) :
    ∃ v, outcome = .ok v ∧
      v.lookup "results" = some (.arr succ) ∧
      v.lookup "failed_results" = some (.arr failed) ∧
      (entryUrls succ).length = 2 ∧
      (entryUrls failed).length = 1 ∧
      ∀ u ∈ a.urls,
        (u ∈ entryUrls succ ∧ u ∉ entryUrls failed) ∨
        (u ∉ entryUrls succ ∧ u ∈ entryUrls failed) := by
  unfold extractCall at hd
  cases hv : validateExtractArgs a with
  | error msg => rw [hv] at hd; exact absurd hd (by simp)
  | ok p =>
    rw [hv] at hd
    injection hd with hpay hout
    refine ⟨resp.body, ?_, hres, hfail, h2, h1, hcover⟩
    rw [← hout]
    unfold extractRespond httpOutcome
    rw [hs]
    rfl

/-- Witness for claim C8 at a concrete call with URLs u1, u2, u3 where
upstream reports u1 and u2 extracted and u3 failed. -/
theorem extract_passthrough_partition_witness :
    ∃ v,
      extractRespond
        ⟨200, Json.obj
          [("results", Json.arr
             [Json.obj [("url", Json.str "u1")], Json.obj [("url", Json.str "u2")]]),
           ("failed_results", Json.arr [Json.obj [("url", Json.str "u3")]]),
           ("response_time", Json.num 1)]⟩ = .ok v ∧
      v.lookup "results" = some (Json.arr
        [Json.obj [("url", Json.str "u1")], Json.obj [("url", Json.str "u2")]]) ∧
      v.lookup "failed_results" = some (Json.arr [Json.obj [("url", Json.str "u3")]]) ∧
      (entryUrls
        [Json.obj [("url", Json.str "u1")], Json.obj [("url", Json.str "u2")]]).length = 2 ∧
      (entryUrls [Json.obj [("url", Json.str "u3")]]).length = 1 ∧
      ∀ u ∈ ["u1", "u2", "u3"],
        (u ∈ entryUrls
          [Json.obj [("url", Json.str "u1")], Json.obj [("url", Json.str "u2")]] ∧
         u ∉ entryUrls [Json.obj [("url", Json.str "u3")]]) ∨
        (u ∉ entryUrls
          [Json.obj [("url", Json.str "u1")], Json.obj [("url", Json.str "u2")]] ∧
         u ∈ entryUrls [Json.obj [("url", Json.str "u3")]]) :=
  extract_passthrough_partition { urls := ["u1", "u2", "u3"] } "k"
    ⟨200, Json.obj
      [("results", Json.arr
         [Json.obj [("url", Json.str "u1")], Json.obj [("url", Json.str "u2")]]),
       ("failed_results", Json.arr [Json.obj [("url", Json.str "u3")]]),
       ("response_time", Json.num 1)]⟩
    [Json.obj [("url", Json.str "u1")], Json.obj [("url", Json.str "u2")]]
    [Json.obj [("url", Json.str "u3")]]
    _ _ rfl rfl rfl rfl rfl rfl rfl (by decide)

/-- Association-list lookup skips a leading field with a different
key. -/
lemma lookup_cons_ne (key k : String) (v : Json) (fields : List (String × Json))
    (h : key ≠ k) :
    List.lookup k ((key, v) :: fields) = List.lookup k fields := by
  have hb : (k == key) = false := beq_eq_false_iff_ne.mpr (Ne.symm h)
  simp [List.lookup, hb]

/-- A required field parse skips a leading field with a different key. -/
lemma reqField_cons_ne {α : Type} (key k : String) (v : Json)
    (fields : List (String × Json)) (f : Json → Option α) (h : key ≠ k) :
    reqField ((key, v) :: fields) k f = reqField fields k f := by
  unfold reqField
  rw [lookup_cons_ne key k v fields h]

/-- An optional field parse skips a leading field with a different
key. -/
lemma optField_cons_ne {α : Type} (key k : String) (v : Json)
    (fields : List (String × Json)) (f : Json → Option α) (h : key ≠ k) :
    optField ((key, v) :: fields) k f = optField fields k f := by
  unfold optField
  rw [lookup_cons_ne key k v fields h]

/-- An optional field parse of an absent key yields the default None. -/
lemma optField_of_lookup_none {α : Type} (fields : List (String × Json))
    (key : String) (f : Json → Option α)
    (h : List.lookup key fields = none) :
    optField fields key f = some none := by
  unfold optField
  rw [h]

/-- TavilySearchResponse validation ignores a top-level field whose key
is not declared in the schema. -/
lemma searchValidate_ignores_extra (key : String) (v : Json)
    (fields : List (String × Json))
    (h : key ∉ (["query", "answer", "images", "results", "response_time",
                 "auto_parameters"] : List String)) :
    TavilySearchResponse.model_validate (.obj ((key, v) :: fields)) =
      TavilySearchResponse.model_validate (.obj fields) := by
  simp only [List.mem_cons, List.not_mem_nil, or_false, not_or] at h
  obtain ⟨h1, h2, h3, h4, h5, h6⟩ := h
  simp only [TavilySearchResponse.model_validate]
  rw [reqField_cons_ne _ _ _ _ _ h1, optField_cons_ne _ _ _ _ _ h2,
      optField_cons_ne _ _ _ _ _ h3, reqField_cons_ne _ _ _ _ _ h4,
      reqField_cons_ne _ _ _ _ _ h5, optField_cons_ne _ _ _ _ _ h6]

/-- TavilyCrawlResponse validation ignores a top-level field whose key
is not declared in the schema. -/
lemma crawlValidate_ignores_extra (key : String) (v : Json)
    (fields : List (String × Json))
    (h : key ∉ (["base_url", "results", "response_time"] : List String)) :
    TavilyCrawlResponse.model_validate (.obj ((key, v) :: fields)) =
      TavilyCrawlResponse.model_validate (.obj fields) := by
  simp only [List.mem_cons, List.not_mem_nil, or_false, not_or] at h
  obtain ⟨h1, h2, h3⟩ := h
  simp only [TavilyCrawlResponse.model_validate]
  rw [reqField_cons_ne _ _ _ _ _ h1, reqField_cons_ne _ _ _ _ _ h2,
      reqField_cons_ne _ _ _ _ _ h3]

/-- TavilyMapResponse validation ignores a top-level field whose key is
not declared in the schema. -/
lemma mapValidate_ignores_extra (key : String) (v : Json)
    (fields : List (String × Json))
    (h : key ∉ (["base_url", "results", "response_time"] : List String)) :
    TavilyMapResponse.model_validate (.obj ((key, v) :: fields)) =
      TavilyMapResponse.model_validate (.obj fields) := by
  simp only [List.mem_cons, List.not_mem_nil, or_false, not_or] at h
  obtain ⟨h1, h2, h3⟩ := h
  simp only [TavilyMapResponse.model_validate]
  rw [reqField_cons_ne _ _ _ _ _ h1, reqField_cons_ne _ _ _ _ _ h2,
      reqField_cons_ne _ _ _ _ _ h3]

/-- A successful TavilySearchResponse validation forces the body to be
an object and determines the optional fields from their parses. -/
lemma searchValidate_some_obj (j : Json) (m : TavilySearchResponse)
    (h : TavilySearchResponse.model_validate j = some m) :
    ∃ fields, j = .obj fields ∧
      optField fields "answer" Json.asStr = some m.answer ∧
      optField fields "images" (listField ImageEntry.model_validate) = some m.images ∧
      optField fields "auto_parameters" Json.asObj = some m.auto_parameters := by
  cases j with
  | obj fields =>
    refine ⟨fields, rfl, ?_⟩
    unfold TavilySearchResponse.model_validate at h
    simp only [Option.bind_eq_bind', Option.bind_eq_some, Option.some.injEq] at h
    obtain ⟨q, hq, ans, ha, im, hi, res, hres, rt, hrt, ap, hap, hm⟩ := h
    subst hm
    exact ⟨ha, hi, hap⟩
  | null => exact Option.noConfusion h
  | bool b => exact Option.noConfusion h
  | num q => exact Option.noConfusion h
  | str s => exact Option.noConfusion h
  | arr elems => exact Option.noConfusion h

/-- Claim C10: for every successful, schema-valid upstream response to
search, crawl or map, the returned dict has exactly the keys declared in
the response schema — undeclared top-level fields are silently ignored
by validation and dropped from the output, and every declared optional
field absent upstream (search is the only schema with optional fields)
appears in the output with value null. -/
theorem strict_tools_return_exact_shape (resp : HttpResponse)
    (hs : isSuccess resp.status = true) :
    (∀ m, TavilySearchResponse.model_validate resp.body = some m →
      searchRespond resp = .ok m.model_dump ∧
      m.model_dump.keys = ["query", "answer", "images", "results",
                           "response_time", "auto_parameters"] ∧
      (resp.body.lookup "answer" = none →
        m.model_dump.lookup "answer" = some .null) ∧
      (resp.body.lookup "images" = none →
        m.model_dump.lookup "images" = some .null) ∧
      (resp.body.lookup "auto_parameters" = none →
        m.model_dump.lookup "auto_parameters" = some .null)) ∧
    (∀ key v fields,
      key ∉ (["query", "answer", "images", "results", "response_time",
              "auto_parameters"] : List String) →
      TavilySearchResponse.model_validate (.obj ((key, v) :: fields)) =
        TavilySearchResponse.model_validate (.obj fields)) ∧
    (∀ m, TavilyCrawlResponse.model_validate resp.body = some m →
      crawlRespond resp = .ok m.model_dump ∧
      m.model_dump.keys = ["base_url", "results", "response_time"]) ∧
    (∀ key v fields,
      key ∉ (["base_url", "results", "response_time"] : List String) →
      TavilyCrawlResponse.model_validate (.obj ((key, v) :: fields)) =
        TavilyCrawlResponse.model_validate (.obj fields)) ∧
    (∀ m, TavilyMapResponse.model_validate resp.body = some m →
      mapRespond resp = .ok m.model_dump ∧
      m.model_dump.keys = ["base_url", "results", "response_time"]) ∧
    (∀ key v fields,
      key ∉ (["base_url", "results", "response_time"] : List String) →
      TavilyMapResponse.model_validate (.obj ((key, v) :: fields)) =
        TavilyMapResponse.model_validate (.obj fields)) := by
  refine ⟨?_, searchValidate_ignores_extra, ?_, crawlValidate_ignores_extra,
          ?_, mapValidate_ignores_extra⟩
  · intro m hm
    obtain ⟨fields, hb, ha, hi, hap⟩ := searchValidate_some_obj resp.body m hm
    refine ⟨?_, rfl, ?_, ?_, ?_⟩
    · unfold searchRespond httpOutcome
      rw [hs, hm]
      rfl
    · intro hnone
      rw [hb] at hnone
      have hl : List.lookup "answer" fields = none := hnone
      have hn := optField_of_lookup_none fields "answer" Json.asStr hl
      rw [ha] at hn
      injection hn with hans
      have hdump : m.model_dump.lookup "answer" = some (dumpOpt Json.str m.answer) := rfl
      rw [hdump, hans]
      rfl
    · intro hnone
      rw [hb] at hnone
      have hl : List.lookup "images" fields = none := hnone
      have hn := optField_of_lookup_none fields "images"
        (listField ImageEntry.model_validate) hl
      rw [hi] at hn
      injection hn with him
      have hdump : m.model_dump.lookup "images" =
          some (dumpOpt (fun xs => .arr (xs.map ImageEntry.model_dump)) m.images) := rfl
      rw [hdump, him]
      rfl
    · intro hnone
      rw [hb] at hnone
      have hl : List.lookup "auto_parameters" fields = none := hnone
      have hn := optField_of_lookup_none fields "auto_parameters" Json.asObj hl
      rw [hap] at hn
      injection hn with hauto
      have hdump : m.model_dump.lookup "auto_parameters" =
          some (dumpOpt Json.obj m.auto_parameters) := rfl
      rw [hdump, hauto]
      rfl
  · intro m hm
    refine ⟨?_, rfl⟩
    unfold crawlRespond httpOutcome
    rw [hs, hm]
    rfl
  · intro m hm
    refine ⟨?_, rfl⟩
    unfold mapRespond httpOutcome
    rw [hs, hm]
    rfl

/-- Witness for claim C10 at a concrete 200 response whose body is a
valid crawl and map response. -/
theorem strict_tools_return_exact_shape_witness :
    (∀ m, TavilySearchResponse.model_validate
        (Json.obj [("base_url", Json.str "b"), ("results", Json.arr []),
                   ("response_time", Json.num 1)]) = some m →
      searchRespond ⟨200, Json.obj [("base_url", Json.str "b"), ("results", Json.arr []),
                   ("response_time", Json.num 1)]⟩ = .ok m.model_dump ∧
      m.model_dump.keys = ["query", "answer", "images", "results",
                           "response_time", "auto_parameters"] ∧
      ((Json.obj [("base_url", Json.str "b"), ("results", Json.arr []),
                  ("response_time", Json.num 1)]).lookup "answer" = none →
        m.model_dump.lookup "answer" = some .null) ∧
      ((Json.obj [("base_url", Json.str "b"), ("results", Json.arr []),
                  ("response_time", Json.num 1)]).lookup "images" = none →
        m.model_dump.lookup "images" = some .null) ∧
      ((Json.obj [("base_url", Json.str "b"), ("results", Json.arr []),
                  ("response_time", Json.num 1)]).lookup "auto_parameters" = none →
        m.model_dump.lookup "auto_parameters" = some .null)) ∧
    (∀ key v fields,
      key ∉ (["query", "answer", "images", "results", "response_time",
              "auto_parameters"] : List String) →
      TavilySearchResponse.model_validate (.obj ((key, v) :: fields)) =
        TavilySearchResponse.model_validate (.obj fields)) ∧
    (∀ m, TavilyCrawlResponse.model_validate
        (Json.obj [("base_url", Json.str "b"), ("results", Json.arr []),
                   ("response_time", Json.num 1)]) = some m →
      crawlRespond ⟨200, Json.obj [("base_url", Json.str "b"), ("results", Json.arr []),
                   ("response_time", Json.num 1)]⟩ = .ok m.model_dump ∧
      m.model_dump.keys = ["base_url", "results", "response_time"]) ∧
    (∀ key v fields,
      key ∉ (["base_url", "results", "response_time"] : List String) →
      TavilyCrawlResponse.model_validate (.obj ((key, v) :: fields)) =
        TavilyCrawlResponse.model_validate (.obj fields)) ∧
    (∀ m, TavilyMapResponse.model_validate
        (Json.obj [("base_url", Json.str "b"), ("results", Json.arr []),
                   ("response_time", Json.num 1)]) = some m →
      mapRespond ⟨200, Json.obj [("base_url", Json.str "b"), ("results", Json.arr []),
                   ("response_time", Json.num 1)]⟩ = .ok m.model_dump ∧
      m.model_dump.keys = ["base_url", "results", "response_time"]) ∧
    (∀ key v fields,
      key ∉ (["base_url", "results", "response_time"] : List String) →
      TavilyMapResponse.model_validate (.obj ((key, v) :: fields)) =
        TavilyMapResponse.model_validate (.obj fields)) :=
  strict_tools_return_exact_shape
    ⟨200, Json.obj [("base_url", Json.str "b"), ("results", Json.arr []),
                    ("response_time", Json.num 1)]⟩ rfl

end Tavily
